import Mathlib

/-!
Shallow embedding of the food-waste REST backend (Express + Prisma, one server
file).  The persistent store is a `Store` record of entity lists; each request
handler becomes a pure function from the store (plus the authenticated caller
id and request parameters) to a new store and an HTTP-style result.  Database
autoincrement ids are modelled with per-table counters, and the wall clock
(`new Date()`) is passed in explicitly as a `Nat` parameter `now`.
-/

namespace FoodWaste

/-- The three statuses of a `FoodItem`, as validated in the PATCH status handler. -/
inductive ItemStatus
  | IN_FRIDGE
  | AVAILABLE
  | CLAIMED
deriving DecidableEq, Repr

/-- The three statuses of a `Claim`. -/
inductive ClaimStatus
  | PENDING
  | ACCEPTED
  | REJECTED
deriving DecidableEq, Repr

structure User where
  id : Nat
  name : String
  email : String
deriving DecidableEq, Repr

structure FoodCategory where
  id : Nat
  name : String
deriving DecidableEq, Repr

structure FoodItem where
  id : Nat
  title : String
  status : ItemStatus
  expiresAt : Option Nat
  ownerId : Nat
  categoryId : Option Nat
deriving DecidableEq, Repr

structure Claim where
  id : Nat
  itemId : Nat
  claimerId : Nat
  status : ClaimStatus
  createdAt : Nat
  decidedAt : Option Nat
deriving DecidableEq, Repr

structure FriendGroup where
  id : Nat
  name : String
  ownerId : Nat
deriving DecidableEq, Repr

structure GroupMember where
  id : Nat
  groupId : Nat
  userId : Nat
deriving DecidableEq, Repr

structure GroupShare where
  id : Nat
  itemId : Nat
  groupId : Nat
deriving DecidableEq, Repr

structure GroupMessage where
  id : Nat
  groupId : Nat
  authorId : Nat
  content : String
  createdAt : Nat
deriving DecidableEq, Repr

/-- The relational store backing the API. -/
structure Store where
  users : List User
  categories : List FoodCategory
  items : List FoodItem
  claims : List Claim
  groups : List FriendGroup
  members : List GroupMember
  shares : List GroupShare
  messages : List GroupMessage
  nextCategoryId : Nat
  nextItemId : Nat
  nextClaimId : Nat
  nextShareId : Nat
deriving DecidableEq, Repr

/-- HTTP-style result of a handler: a JSON body on success, or an error status
code with a message (`res.status(code).json(\x7b error \x7d)`). -/
inductive Api (α : Type) where
  | ok : α → Api α
  | err : Nat → String → Api α
deriving DecidableEq, Repr

/-- Prisma-style `update` on a list: rewrite every row matching the predicate. -/
def updateWhere {α : Type} (p : α → Bool) (f : α → α) (l : List α) : List α :=
  l.map fun x => if p x then f x else x

/-- Parse the status string checked by the includes check on the list IN_FRIDGE, AVAILABLE, CLAIMED. -/
def parseItemStatus : String → Option ItemStatus
  | "IN_FRIDGE" => some ItemStatus.IN_FRIDGE
  | "AVAILABLE" => some ItemStatus.AVAILABLE
  | "CLAIMED" => some ItemStatus.CLAIMED
  | _ => none

/-- Parse the decision string checked by the includes check on the list ACCEPTED, REJECTED. -/
def parseDecision : String → Option ClaimStatus
  | "ACCEPTED" => some ClaimStatus.ACCEPTED
  | "REJECTED" => some ClaimStatus.REJECTED
  | _ => none

/-- The fixed default category names seeded by `ensureCategories`. -/
def defaultCategoryNames : List String :=
  ["Lactate", "Legume", "Fructe", "Carne", "Conserve", "BÄƒuturi"]

/-- `ensureCategories`: seed any missing default categories (lazy bootstrap). -/
def ensureCategories (s : Store) : Store :=
  let existing := s.categories.filter fun c => defaultCategoryNames.contains c.name
  if existing.length = defaultCategoryNames.length then s
  else
    let toCreate := defaultCategoryNames.filter fun n => !(existing.any fun c => c.name == n)
    if toCreate.length > 0 then
      { s with
        categories :=
          s.categories ++ toCreate.enum.map fun kn =>
            { id := s.nextCategoryId + kn.1, name := kn.2 }
        nextCategoryId := s.nextCategoryId + toCreate.length }
    else s

/-- JS `categoryId || null`: a falsy (absent or zero) category id becomes null. -/
def normCategoryId : Option Nat → Option Nat
  | some 0 => none
  | x => x

/-- Foreign-key check enforced by the store: the migration DDL (appended to
src/client/src/App.jsx) declares the constraint FoodItem_categoryId_fkey,
FOREIGN KEY (categoryId) REFERENCES FoodCategory (id), so the database rejects
a create whose non-null category id matches no existing category row. -/
def fkCategoryOk (s : Store) : Option Nat → Bool
  | none => true
  | some c => s.categories.any fun cat => cat.id == c

/-- `POST /api/items` (createItem): reject an empty title, seed categories,
create the item.  The migration DDL (appended to src/client/src/App.jsx)
declares the FoodItem status column TEXT NOT NULL DEFAULT IN_FRIDGE, so the
created row defaults to IN_FRIDGE; a foreign-key violation on categoryId makes
the create throw, which the catch-all maps to a 500 response, with the
category seeding already committed. -/
def createItem (s : Store) (callerId : Nat) (title : String)
    (categoryId expiresAt : Option Nat) : Store × Api FoodItem :=
  if title = "" then (s, Api.err 400 "title is required")
  else
    let s1 := ensureCategories s
    let cid := normCategoryId categoryId
    if fkCategoryOk s1 cid then
      let item : FoodItem :=
        { id := s1.nextItemId, title := title, status := ItemStatus.IN_FRIDGE
          expiresAt := expiresAt, ownerId := callerId, categoryId := cid }
      ({ s1 with items := s1.items ++ [item], nextItemId := s1.nextItemId + 1 },
       Api.ok item)
    else (s1, Api.err 500 "Failed to create item")

/-- `PATCH /api/items/:id/status` (setItemStatus): validate the status string,
then a Prisma `update` keyed on the compound unique `id_ownerId`.  When no row
matches, the update throws and the catch returns 500. -/
def setItemStatus (s : Store) (callerId itemId : Nat) (status : String) :
    Store × Api FoodItem :=
  match parseItemStatus status with
  | none => (s, Api.err 400 "invalid status")
  | some st =>
    match s.items.find? (fun it => it.id == itemId && it.ownerId == callerId) with
    | none => (s, Api.err 500 "Failed to update item")
    | some it =>
      ({ s with
          items := updateWhere (fun x => x.id == itemId && x.ownerId == callerId)
            (fun x => { x with status := st }) s.items },
       Api.ok { it with status := st })

/-- Fresh Claim row as created by `prisma.claim.create` with only itemId and
claimerId supplied: the migration DDL (appended to src/client/src/App.jsx)
declares the Claim status column TEXT NOT NULL DEFAULT PENDING and decidedAt
as a nullable DATETIME, so the new row has status PENDING and decidedAt
null. -/
def newClaim (id itemId claimerId now : Nat) : Claim :=
  { id := id, itemId := itemId, claimerId := claimerId
    status := ClaimStatus.PENDING, createdAt := now, decidedAt := none }

/-- Response body of `POST /api/claims`: the claim with its claimer joined. -/
structure CreateClaimResponse where
  claim : Claim
  claimer : Option User
deriving DecidableEq, Repr

/-- `POST /api/claims` (createClaim): reject a falsy itemId, a missing or
non-AVAILABLE item, and a self-claim; otherwise create a PENDING claim. -/
def createClaim (s : Store) (callerId itemId now : Nat) :
    Store × Api CreateClaimResponse :=
  if itemId = 0 then (s, Api.err 400 "itemId required")
  else
    match s.items.find? (fun it => it.id == itemId) with
    | none => (s, Api.err 400 "Item not available")
    | some item =>
      if item.status ≠ ItemStatus.AVAILABLE then (s, Api.err 400 "Item not available")
      else if item.ownerId = callerId then (s, Api.err 400 "Cannot claim own item")
      else
        let c := newClaim s.nextClaimId itemId callerId now
        ({ s with claims := s.claims ++ [c], nextClaimId := s.nextClaimId + 1 },
         Api.ok { claim := c, claimer := s.users.find? fun u => u.id == callerId })

/-- Response body of `POST /api/claims/:id/decision`: the updated claim with
item and claimer joined at the time of the claim update. -/
structure ClaimDecisionResponse where
  claim : Claim
  item : Option FoodItem
  claimer : Option User
deriving DecidableEq, Repr

/-- `POST /api/claims/:id/decision` (decideClaim): validate the decision string;
load the claim with its item; 403 unless the caller owns the item; update the
claim (status and decidedAt) and capture the response with the item joined as
it stands at that moment; only afterwards, on ACCEPTED, update the item row to
CLAIMED.  A claim whose joined item row is missing makes the handler throw on
`claim.item.ownerId`, mapped to 500 by the catch. -/
def decideClaim (s : Store) (callerId claimId : Nat) (decision : String) (now : Nat) :
    Store × Api ClaimDecisionResponse :=
  match parseDecision decision with
  | none => (s, Api.err 400 "decision must be ACCEPTED or REJECTED")
  | some dec =>
    match s.claims.find? (fun c => c.id == claimId) with
    | none => (s, Api.err 403 "Not allowed")
    | some c =>
      match s.items.find? (fun it => it.id == c.itemId) with
      | none => (s, Api.err 500 "Failed to update claim")
      | some item =>
        if item.ownerId ≠ callerId then (s, Api.err 403 "Not allowed")
        else
          let updated : Claim := { c with status := dec, decidedAt := some now }
          let s1 : Store :=
            { s with
                claims := updateWhere (fun x => x.id == claimId)
                  (fun x => { x with status := dec, decidedAt := some now }) s.claims }
          let resp : ClaimDecisionResponse :=
            { claim := updated
              item := s1.items.find? fun it => it.id == updated.itemId
              claimer := s1.users.find? fun u => u.id == updated.claimerId }
          let s2 : Store :=
            if dec = ClaimStatus.ACCEPTED then
              { s1 with
                  items := updateWhere (fun it => it.id == c.itemId)
                    (fun it => { it with status := ItemStatus.CLAIMED }) s1.items }
            else s1
          (s2, Api.ok resp)

/-- The authorization predicate shared by the group handlers:
`group.ownerId === user.id || group.members.some(m => m.userId === user.id)`. -/
def isOwnerOrMember (s : Store) (g : FriendGroup) (userId : Nat) : Bool :=
  g.ownerId == userId || s.members.any fun m => m.groupId == g.id && m.userId == userId

/-- `POST /api/groups/:id/share` (shareItemToGroup): reject a falsy itemId; 404
on a missing group; 403 unless the caller is the group owner or a member; 403
unless the caller owns the item; then an idempotent upsert on the compound
unique (itemId, groupId) with an empty update clause. -/
def shareItemToGroup (s : Store) (callerId groupId itemId : Nat) :
    Store × Api Bool :=
  if itemId = 0 then (s, Api.err 400 "itemId required")
  else
    match s.groups.find? (fun g => g.id == groupId) with
    | none => (s, Api.err 404 "group not found")
    | some g =>
      if !(isOwnerOrMember s g callerId) then (s, Api.err 403 "Not allowed")
      else
        match s.items.find? (fun it => it.id == itemId) with
        | none => (s, Api.err 403 "You can share only your own items")
        | some item =>
          if item.ownerId ≠ callerId then
            (s, Api.err 403 "You can share only your own items")
          else if s.shares.any (fun sh => sh.itemId == itemId && sh.groupId == groupId) then
            (s, Api.ok true)
          else
            ({ s with
                shares := s.shares ++ [{ id := s.nextShareId, itemId := itemId, groupId := groupId }]
                nextShareId := s.nextShareId + 1 },
             Api.ok true)

/-- Ordering of group messages by creation time (Prisma `orderBy createdAt asc`). -/
def msgLe (a b : GroupMessage) : Prop := a.createdAt ≤ b.createdAt

instance : DecidableRel msgLe := fun a b => Nat.decLe a.createdAt b.createdAt

instance : IsTotal GroupMessage msgLe := ⟨fun a b => Nat.le_total a.createdAt b.createdAt⟩

instance : IsTrans GroupMessage msgLe := ⟨fun _ _ _ h1 h2 => Nat.le_trans h1 h2⟩

/-- `GET /api/groups/:id/messages` (listMessages): 404 on a missing group, 403
unless owner or member; otherwise the messages of the group ordered ascending by
creation time, truncated to the first 200 (`take: 200` after `orderBy asc`). -/
def listMessages (s : Store) (callerId groupId : Nat) : Api (List GroupMessage) :=
  match s.groups.find? (fun g => g.id == groupId) with
  | none => Api.err 404 "group not found"
  | some g =>
    if !(isOwnerOrMember s g callerId) then Api.err 403 "Not allowed"
    else
      Api.ok ((List.insertionSort msgLe
        (s.messages.filter fun m => m.groupId == groupId)).take 200)

/-- JS `auth.startsWith` with the Bearer scheme, embedded over the character list so that
it computes in proofs. -/
def strStartsWith (s pre : String) : Bool :=
  List.isPrefixOf pre.toList s.toList

/-- JS `auth.slice(7)`: drop the first 7 characters, embedded over the
character list so that it computes in proofs. -/
def strDrop (s : String) (n : Nat) : String :=
  String.mk (s.toList.drop n)

/-- `authMiddleware`: extract a bearer token (`null` when the header does not
start with `Bearer `, and an empty remainder is falsy too), verify it — the
JWT library is abstracted as a `verify` function returning the payload
userId on success and nothing when the token is invalid or expired — then
resolve the user id against the store; 401 on any failure. -/
def authMiddleware (verify : String → Option Nat) (s : Store)
    (authHeader : Option String) : Api User :=
  let auth := authHeader.getD ""
  let token : Option String :=
    if strStartsWith auth "Bearer " then some (strDrop auth 7) else none
  match token with
  | none => Api.err 401 "Unauthorized"
  | some t =>
    if t = "" then Api.err 401 "Unauthorized"
    else
      match verify t with
      | none => Api.err 401 "Unauthorized"
      | some uid =>
        match s.users.find? (fun u => u.id == uid) with
        | none => Api.err 401 "Unauthorized"
        | some u => Api.ok u

/-- Number of GroupShare rows for a given (itemId, groupId) pair. -/
def countShares (s : Store) (itemId groupId : Nat) : Nat :=
  (s.shares.filter fun sh => sh.itemId == itemId && sh.groupId == groupId).length

/-- If `find?` locates a row and the update preserves the predicate, `find?`
after `updateWhere` locates the updated row. -/
theorem find?_updateWhere {α : Type} (p : α → Bool) (f : α → α)
    (hpf : ∀ a, p a = true → p (f a) = true) (l : List α) (x : α)
    (h : l.find? p = some x) :
    (updateWhere p f l).find? p = some (f x) := by
  induction l with
  | nil => simp [List.find?] at h
  | cons a l ih =>
    unfold updateWhere at *
    rw [List.map_cons]
    by_cases ha : p a = true
    · rw [List.find?_cons_of_pos _ ha] at h
      rw [if_pos ha, List.find?_cons_of_pos _ (hpf a ha)]
      injection h with h
      rw [h]
    · rw [List.find?_cons_of_neg _ ha] at h
      rw [if_neg ha, List.find?_cons_of_neg _ ha]
      exact ih h

/-- Rows not matching the predicate survive `updateWhere` untouched. -/
theorem mem_updateWhere_of_neg {α : Type} (p : α → Bool) (f : α → α)
    (l : List α) (x : α) (hx : x ∈ l) (hpx : p x = false) :
    x ∈ updateWhere p f l := by
  refine List.mem_map.mpr ⟨x, hx, ?_⟩
  simp [hpx]

/-- Claim C1: for a claim whose item is owned by the caller, decideClaim with
ACCEPTED sets the claim status to ACCEPTED and decidedAt, and sets the item
status to CLAIMED; with REJECTED it updates only the claim, leaving the items
untouched; and a caller who does not own the claimed item gets Forbidden (403)
for both decision values, with the store unchanged. -/
theorem decideClaim_correct (s : Store) (caller claimId now : Nat)
    (c : Claim) (item : FoodItem)
    (hc : s.claims.find? (fun x => x.id == claimId) = some c)
    (hi : s.items.find? (fun it => it.id == c.itemId) = some item) :
    (item.ownerId = caller →
      ((decideClaim s caller claimId "ACCEPTED" now).1.claims.find?
          (fun x => x.id == claimId)
        = some { c with status := ClaimStatus.ACCEPTED, decidedAt := some now }) ∧
      ((decideClaim s caller claimId "ACCEPTED" now).1.items.find?
          (fun it => it.id == c.itemId)
        = some { item with status := ItemStatus.CLAIMED }) ∧
      ((decideClaim s caller claimId "REJECTED" now).1.claims.find?
          (fun x => x.id == claimId)
        = some { c with status := ClaimStatus.REJECTED, decidedAt := some now }) ∧
      (decideClaim s caller claimId "REJECTED" now).1.items = s.items) ∧
    (item.ownerId ≠ caller →
      decideClaim s caller claimId "ACCEPTED" now = (s, Api.err 403 "Not allowed") ∧
      decideClaim s caller claimId "REJECTED" now = (s, Api.err 403 "Not allowed")) := by
  constructor
  · intro hown
    have hne : ¬ item.ownerId ≠ caller := by simp [hown]
    refine ⟨?_, ?_, ?_, ?_⟩
    · simp only [decideClaim, parseDecision, hc, hi, if_neg hne]
      rw [if_pos trivial]
      exact find?_updateWhere (fun x => x.id == claimId)
        (fun x => { x with status := ClaimStatus.ACCEPTED, decidedAt := some now })
        (fun a ha => ha) s.claims c hc
    · simp only [decideClaim, parseDecision, hc, hi, if_neg hne]
      rw [if_pos trivial]
      exact find?_updateWhere (fun it => it.id == c.itemId)
        (fun it => { it with status := ItemStatus.CLAIMED })
        (fun a ha => ha) s.items item hi
    · simp only [decideClaim, parseDecision, hc, hi, if_neg hne]
      rw [if_neg (by decide)]
      exact find?_updateWhere (fun x => x.id == claimId)
        (fun x => { x with status := ClaimStatus.REJECTED, decidedAt := some now })
        (fun a ha => ha) s.claims c hc
    · simp only [decideClaim, parseDecision, hc, hi, if_neg hne]
      rw [if_neg (by decide)]
  · intro hown
    constructor
    · simp only [decideClaim, parseDecision, hc, hi, if_pos hown]
    · simp only [decideClaim, parseDecision, hc, hi, if_pos hown]

/-- Store used to instantiate the decideClaim theorems: user 1 owns item 1
(AVAILABLE), user 2 has the pending claim 1 on it. -/
def claimStore : Store :=
  { users := [{ id := 1, name := "ana", email := "a" }, { id := 2, name := "bob", email := "b" }]
    categories := []
    items := [{ id := 1, title := "Milk", status := ItemStatus.AVAILABLE
                expiresAt := none, ownerId := 1, categoryId := none }]
    claims := [{ id := 1, itemId := 1, claimerId := 2, status := ClaimStatus.PENDING
                 createdAt := 0, decidedAt := none }]
    groups := [], members := [], shares := [], messages := []
    nextCategoryId := 1, nextItemId := 2, nextClaimId := 2, nextShareId := 1 }

/-- Witness for C1 at a concrete store. -/
theorem decideClaim_correct_witness :
    (((decideClaim claimStore 1 1 "ACCEPTED" 5).1.claims.find?
        (fun x => x.id == 1)
      = some { id := 1, itemId := 1, claimerId := 2, status := ClaimStatus.ACCEPTED
               createdAt := 0, decidedAt := some 5 }) ∧
     ((decideClaim claimStore 1 1 "ACCEPTED" 5).1.items.find?
        (fun it => it.id == 1)
      = some { id := 1, title := "Milk", status := ItemStatus.CLAIMED
               expiresAt := none, ownerId := 1, categoryId := none }) ∧
     ((decideClaim claimStore 1 1 "REJECTED" 5).1.claims.find?
        (fun x => x.id == 1)
      = some { id := 1, itemId := 1, claimerId := 2, status := ClaimStatus.REJECTED
               createdAt := 0, decidedAt := some 5 }) ∧
     (decideClaim claimStore 1 1 "REJECTED" 5).1.items = claimStore.items) ∧
    (decideClaim claimStore 2 1 "ACCEPTED" 5 = (claimStore, Api.err 403 "Not allowed") ∧
     decideClaim claimStore 2 1 "REJECTED" 5 = (claimStore, Api.err 403 "Not allowed")) :=
  ⟨(decideClaim_correct claimStore 1 1 5
      { id := 1, itemId := 1, claimerId := 2, status := ClaimStatus.PENDING
        createdAt := 0, decidedAt := none }
      { id := 1, title := "Milk", status := ItemStatus.AVAILABLE
        expiresAt := none, ownerId := 1, categoryId := none }
      (by decide) (by decide)).1 rfl,
   (decideClaim_correct claimStore 2 1 5
      { id := 1, itemId := 1, claimerId := 2, status := ClaimStatus.PENDING
        createdAt := 0, decidedAt := none }
      { id := 1, title := "Milk", status := ItemStatus.AVAILABLE
        expiresAt := none, ownerId := 1, categoryId := none }
      (by decide) (by decide)).2 (by decide)⟩

/-- Claim C10: on an ACCEPTED decision by the owner, the JSON response embeds
the item as it stood before the transition (still AVAILABLE), while the stored
item row ends up CLAIMED, because the claim row (with its joined item) is
updated and captured for the response before the item row is updated. -/
theorem decideClaim_response_stale_item (s : Store) (caller claimId now : Nat)
    (c : Claim) (item : FoodItem)
    (hc : s.claims.find? (fun x => x.id == claimId) = some c)
    (hi : s.items.find? (fun it => it.id == c.itemId) = some item)
    (hown : item.ownerId = caller) (hst : item.status = ItemStatus.AVAILABLE) :
    (decideClaim s caller claimId "ACCEPTED" now).2
      = Api.ok { claim := { c with status := ClaimStatus.ACCEPTED, decidedAt := some now }
                 item := some item
                 claimer := s.users.find? fun u => u.id == c.claimerId } ∧
    item.status = ItemStatus.AVAILABLE ∧
    (decideClaim s caller claimId "ACCEPTED" now).1.items.find?
        (fun it => it.id == c.itemId) = some { item with status := ItemStatus.CLAIMED } := by
  have hne : ¬ item.ownerId ≠ caller := by simp [hown]
  refine ⟨?_, hst, ?_⟩
  · simp only [decideClaim, parseDecision, hc, hi, if_neg hne]
  · simp only [decideClaim, parseDecision, hc, hi, if_neg hne]
    rw [if_pos trivial]
    exact find?_updateWhere (fun it => it.id == c.itemId)
      (fun it => { it with status := ItemStatus.CLAIMED })
      (fun a ha => ha) s.items item hi

/-- Witness for C10 at a concrete store. -/
theorem decideClaim_response_stale_item_witness :
    (decideClaim claimStore 1 1 "ACCEPTED" 5).2
      = Api.ok { claim := { id := 1, itemId := 1, claimerId := 2
                            status := ClaimStatus.ACCEPTED, createdAt := 0, decidedAt := some 5 }
                 item := some { id := 1, title := "Milk", status := ItemStatus.AVAILABLE
                                expiresAt := none, ownerId := 1, categoryId := none }
                 claimer := claimStore.users.find? fun u => u.id == 2 } ∧
    ItemStatus.AVAILABLE = ItemStatus.AVAILABLE ∧
    (decideClaim claimStore 1 1 "ACCEPTED" 5).1.items.find?
        (fun it => it.id == 1) = some { id := 1, title := "Milk", status := ItemStatus.CLAIMED
                                        expiresAt := none, ownerId := 1, categoryId := none } :=
  decideClaim_response_stale_item claimStore 1 1 5
    { id := 1, itemId := 1, claimerId := 2, status := ClaimStatus.PENDING
      createdAt := 0, decidedAt := none }
    { id := 1, title := "Milk", status := ItemStatus.AVAILABLE
      expiresAt := none, ownerId := 1, categoryId := none }
    (by decide) (by decide) rfl rfl

/-- Counterexample to claim C6 as stated: the owner accepts claim 1 at time 10
(decidedAt becomes 10); the exposed decideClaim operation then succeeds again
with REJECTED at time 20 and overwrites both the status and decidedAt of the
already-decided claim. -/
theorem decideClaim_redecide_cex :
    ((decideClaim claimStore 1 1 "ACCEPTED" 10).1.claims.find? (fun x => x.id == 1)
      = some { id := 1, itemId := 1, claimerId := 2, status := ClaimStatus.ACCEPTED
               createdAt := 0, decidedAt := some 10 }) ∧
    ((decideClaim (decideClaim claimStore 1 1 "ACCEPTED" 10).1 1 1 "REJECTED" 20).2
      = Api.ok { claim := { id := 1, itemId := 1, claimerId := 2
                            status := ClaimStatus.REJECTED, createdAt := 0, decidedAt := some 20 }
                 item := some { id := 1, title := "Milk", status := ItemStatus.CLAIMED
                                expiresAt := none, ownerId := 1, categoryId := none }
                 claimer := some { id := 2, name := "bob", email := "b" } }) ∧
    ((decideClaim (decideClaim claimStore 1 1 "ACCEPTED" 10).1 1 1 "REJECTED" 20).1.claims.find?
        (fun x => x.id == 1)
      = some { id := 1, itemId := 1, claimerId := 2, status := ClaimStatus.REJECTED
               createdAt := 0, decidedAt := some 20 }) := by decide

/-- Claim C6 amended: decidedAt is set on every owner decision but not exactly
once — decideClaim performs no check on the current status of the claim, so the item
owner can re-decide an already decided claim (decidedAt non-null), and the call
succeeds and overwrites both status and decidedAt. -/
theorem decideClaim_overwrites_decision (s : Store) (caller claimId now t0 : Nat)
    (dec : ClaimStatus) (decision : String) (c : Claim) (item : FoodItem)
    (hdec : parseDecision decision = some dec)
    (hc : s.claims.find? (fun x => x.id == claimId) = some c)
    (hi : s.items.find? (fun it => it.id == c.itemId) = some item)
    (hown : item.ownerId = caller)
    (hprev : c.decidedAt = some t0) :
    (∃ resp, (decideClaim s caller claimId decision now).2 = Api.ok resp) ∧
    (decideClaim s caller claimId decision now).1.claims.find? (fun x => x.id == claimId)
      = some { c with status := dec, decidedAt := some now } := by
  have hne : ¬ item.ownerId ≠ caller := by simp [hown]
  constructor
  · simp only [decideClaim, hdec, hc, hi, if_neg hne]
    exact ⟨_, rfl⟩
  · simp only [decideClaim, hdec, hc, hi, if_neg hne]
    split
    · exact find?_updateWhere (fun x => x.id == claimId)
        (fun x => { x with status := dec, decidedAt := some now })
        (fun a ha => ha) s.claims c hc
    · exact find?_updateWhere (fun x => x.id == claimId)
        (fun x => { x with status := dec, decidedAt := some now })
        (fun a ha => ha) s.claims c hc

/-- Store with an already decided claim (decidedAt 10). -/
def decidedStore : Store :=
  { claimStore with
      claims := [{ id := 1, itemId := 1, claimerId := 2, status := ClaimStatus.ACCEPTED
                   createdAt := 0, decidedAt := some 10 }] }

/-- Witness for the amended C6 at a concrete store. -/
theorem decideClaim_overwrites_decision_witness :
    (∃ resp, (decideClaim decidedStore 1 1 "REJECTED" 20).2 = Api.ok resp) ∧
    (decideClaim decidedStore 1 1 "REJECTED" 20).1.claims.find? (fun x => x.id == 1)
      = some { id := 1, itemId := 1, claimerId := 2, status := ClaimStatus.REJECTED
               createdAt := 0, decidedAt := some 20 } :=
  decideClaim_overwrites_decision decidedStore 1 1 20 10 ClaimStatus.REJECTED "REJECTED"
    { id := 1, itemId := 1, claimerId := 2, status := ClaimStatus.ACCEPTED
      createdAt := 0, decidedAt := some 10 }
    { id := 1, title := "Milk", status := ItemStatus.AVAILABLE
      expiresAt := none, ownerId := 1, categoryId := none }
    rfl (by decide) (by decide) rfl rfl

/-- Extract the error status code of an API result, if any. -/
def errCode {α : Type} : Api α → Option Nat
  | Api.ok _ => none
  | Api.err code _ => some code

/-- Store for C2: item 1 exists but belongs to user 2; user 1 is the caller. -/
def otherOwnerStore : Store :=
  { users := [{ id := 1, name := "ana", email := "a" }, { id := 2, name := "bob", email := "b" }]
    categories := []
    items := [{ id := 1, title := "Jam", status := ItemStatus.IN_FRIDGE
                expiresAt := none, ownerId := 2, categoryId := none }]
    claims := [], groups := [], members := [], shares := [], messages := []
    nextCategoryId := 1, nextItemId := 2, nextClaimId := 1, nextShareId := 1 }

/-- Counterexample to claim C2 as stated: setItemStatus on an item id that
exists but belongs to another owner returns HTTP 500, not NotFound (404) — the
compound-unique update matches no row, throws, and is caught by the blanket
500 handler. -/
theorem setItemStatus_notFound_cex :
    setItemStatus otherOwnerStore 1 1 "AVAILABLE"
      = (otherOwnerStore, Api.err 500 "Failed to update item") ∧
    errCode (setItemStatus otherOwnerStore 1 1 "AVAILABLE").2 = some 500 ∧
    errCode (setItemStatus otherOwnerStore 1 1 "AVAILABLE").2 ≠ some 404 := by decide

/-- Claim C2 amended: setItemStatus on an item that is not owned by the caller
(no row matches both the id and the ownerId of the caller) fails with HTTP 500 —
the failed compound-keyed update is mapped by the catch-all to Internal, not
NotFound — regardless of whether the id exists for another owner, and the
store is unchanged; on success only the row matching both the id and the
ownerId of the caller is rewritten, every other row surviving untouched. -/
theorem setItemStatus_scoped (s : Store) (caller itemId : Nat)
    (status : String) (st : ItemStatus)
    (hparse : parseItemStatus status = some st) :
    (s.items.find? (fun it => it.id == itemId && it.ownerId == caller) = none →
      setItemStatus s caller itemId status = (s, Api.err 500 "Failed to update item")) ∧
    (∀ it, s.items.find? (fun x => x.id == itemId && x.ownerId == caller) = some it →
      (setItemStatus s caller itemId status).2 = Api.ok { it with status := st } ∧
      (setItemStatus s caller itemId status).1.items.find?
          (fun x => x.id == itemId && x.ownerId == caller) = some { it with status := st } ∧
      ∀ x ∈ s.items, ((x.id == itemId && x.ownerId == caller) = false) →
        x ∈ (setItemStatus s caller itemId status).1.items) := by
  constructor
  · intro hnone
    simp only [setItemStatus, hparse, hnone]
  · intro it hit
    refine ⟨?_, ?_, ?_⟩
    · simp only [setItemStatus, hparse, hit]
    · simp only [setItemStatus, hparse, hit]
      exact find?_updateWhere (fun x => x.id == itemId && x.ownerId == caller)
        (fun x => { x with status := st }) (fun a ha => ha) s.items it hit
    · intro x hx hpx
      simp only [setItemStatus, hparse, hit]
      exact mem_updateWhere_of_neg _ _ s.items x hx hpx

/-- Witness for the amended C2 at a concrete store: both the miss branch (the
caller does not own item 1) and the scoped-success branch (the real owner
does). -/
theorem setItemStatus_scoped_witness :
    (setItemStatus otherOwnerStore 1 1 "AVAILABLE"
      = (otherOwnerStore, Api.err 500 "Failed to update item")) ∧
    ((setItemStatus otherOwnerStore 2 1 "AVAILABLE").2
      = Api.ok { id := 1, title := "Jam", status := ItemStatus.AVAILABLE
                 expiresAt := none, ownerId := 2, categoryId := none }) :=
  ⟨(setItemStatus_scoped otherOwnerStore 1 1 "AVAILABLE" ItemStatus.AVAILABLE rfl).1
      (by decide),
   ((setItemStatus_scoped otherOwnerStore 2 1 "AVAILABLE" ItemStatus.AVAILABLE rfl).2
      { id := 1, title := "Jam", status := ItemStatus.IN_FRIDGE
        expiresAt := none, ownerId := 2, categoryId := none }
      (by decide)).1⟩

/-- Store for C3: the caller owns item 1, still IN_FRIDGE. -/
def fridgeStore : Store :=
  { users := [{ id := 1, name := "ana", email := "a" }]
    categories := []
    items := [{ id := 1, title := "Jam", status := ItemStatus.IN_FRIDGE
                expiresAt := none, ownerId := 1, categoryId := none }]
    claims := [], groups := [], members := [], shares := [], messages := []
    nextCategoryId := 1, nextItemId := 2, nextClaimId := 1, nextShareId := 1 }

/-- Counterexample to claim C3 as stated: the exposed status update moves item
1 directly from IN_FRIDGE to CLAIMED, a transition the claimed invariant
forbids (it allows only IN_FRIDGE to AVAILABLE and AVAILABLE to CLAIMED). -/
theorem setItemStatus_transition_cex :
    fridgeStore.items = [{ id := 1, title := "Jam", status := ItemStatus.IN_FRIDGE
                           expiresAt := none, ownerId := 1, categoryId := none }] ∧
    (setItemStatus fridgeStore 1 1 "CLAIMED").2
      = Api.ok { id := 1, title := "Jam", status := ItemStatus.CLAIMED
                 expiresAt := none, ownerId := 1, categoryId := none } ∧
    (setItemStatus fridgeStore 1 1 "CLAIMED").1.items
      = [{ id := 1, title := "Jam", status := ItemStatus.CLAIMED
           expiresAt := none, ownerId := 1, categoryId := none }] := by decide

/-- Claim C3 amended: the status-update handler enforces no transition
discipline — for an item owned by the caller, any of the three valid statuses
can be set regardless of the current status, so every transition among
IN_FRIDGE, AVAILABLE and CLAIMED (including CLAIMED back to IN_FRIDGE and
IN_FRIDGE directly to CLAIMED) is produced by an exposed operation. -/
theorem setItemStatus_any_transition (s : Store) (caller itemId : Nat)
    (cur st : ItemStatus) (status : String) (it : FoodItem)
    (hparse : parseItemStatus status = some st)
    (hfind : s.items.find? (fun x => x.id == itemId && x.ownerId == caller) = some it)
    (hcur : it.status = cur) :
    (setItemStatus s caller itemId status).2 = Api.ok { it with status := st } ∧
    (setItemStatus s caller itemId status).1.items.find?
      (fun x => x.id == itemId && x.ownerId == caller) = some { it with status := st } := by
  constructor
  · simp only [setItemStatus, hparse, hfind]
  · simp only [setItemStatus, hparse, hfind]
    exact find?_updateWhere (fun x => x.id == itemId && x.ownerId == caller)
      (fun x => { x with status := st }) (fun a ha => ha) s.items it hfind

/-- Witness for the amended C3: the IN_FRIDGE to CLAIMED jump at a concrete
store. -/
theorem setItemStatus_any_transition_witness :
    (setItemStatus fridgeStore 1 1 "CLAIMED").2
      = Api.ok { id := 1, title := "Jam", status := ItemStatus.CLAIMED
                 expiresAt := none, ownerId := 1, categoryId := none } ∧
    (setItemStatus fridgeStore 1 1 "CLAIMED").1.items.find?
      (fun x => x.id == 1 && x.ownerId == 1)
      = some { id := 1, title := "Jam", status := ItemStatus.CLAIMED
               expiresAt := none, ownerId := 1, categoryId := none } :=
  setItemStatus_any_transition fridgeStore 1 1 ItemStatus.IN_FRIDGE ItemStatus.CLAIMED
    "CLAIMED"
    { id := 1, title := "Jam", status := ItemStatus.IN_FRIDGE
      expiresAt := none, ownerId := 1, categoryId := none }
    rfl (by decide) rfl

/-- Claim C4: createClaim fails with BadRequest when the item does not exist
or is not AVAILABLE, and when the caller owns the item; otherwise it creates a
claim with status PENDING with the claimer joined in the response; the store is
unchanged in every failure case (and the items are never touched). -/
theorem createClaim_correct (s : Store) (caller itemId now : Nat) :
    (itemId = 0 → createClaim s caller itemId now = (s, Api.err 400 "itemId required")) ∧
    (itemId ≠ 0 → s.items.find? (fun it => it.id == itemId) = none →
      createClaim s caller itemId now = (s, Api.err 400 "Item not available")) ∧
    (∀ item, itemId ≠ 0 → s.items.find? (fun it => it.id == itemId) = some item →
      (item.status ≠ ItemStatus.AVAILABLE →
        createClaim s caller itemId now = (s, Api.err 400 "Item not available")) ∧
      (item.status = ItemStatus.AVAILABLE → item.ownerId = caller →
        createClaim s caller itemId now = (s, Api.err 400 "Cannot claim own item")) ∧
      (item.status = ItemStatus.AVAILABLE → item.ownerId ≠ caller →
        ∃ resp, (createClaim s caller itemId now).2 = Api.ok resp ∧
          resp.claim.status = ClaimStatus.PENDING ∧
          resp.claim.decidedAt = none ∧
          resp.claimer = s.users.find? (fun u => u.id == caller) ∧
          (createClaim s caller itemId now).1.claims = s.claims ++ [resp.claim] ∧
          (createClaim s caller itemId now).1.items = s.items)) := by
  refine ⟨?_, ?_, ?_⟩
  · intro h0
    simp only [createClaim, if_pos h0]
  · intro h0 hnone
    simp only [createClaim, if_neg h0, hnone]
  · intro item h0 hsome
    refine ⟨?_, ?_, ?_⟩
    · intro hna
      simp only [createClaim, if_neg h0, hsome, if_pos hna]
    · intro hav hown
      have hna : ¬ item.status ≠ ItemStatus.AVAILABLE := by simp [hav]
      simp only [createClaim, if_neg h0, hsome, if_neg hna, if_pos hown]
    · intro hav hown
      have hna : ¬ item.status ≠ ItemStatus.AVAILABLE := by simp [hav]
      refine ⟨{ claim := newClaim s.nextClaimId itemId caller now
                claimer := s.users.find? fun u => u.id == caller },
        ?_, rfl, rfl, rfl, ?_, ?_⟩
      · simp only [createClaim, if_neg h0, hsome, if_neg hna, if_neg hown]
      · simp only [createClaim, if_neg h0, hsome, if_neg hna, if_neg hown]
      · simp only [createClaim, if_neg h0, hsome, if_neg hna, if_neg hown]

/-- Store for C4: item 1 (AVAILABLE) belongs to user 1, item 2 is still in the
fridge; user 2 is a would-be claimer. -/
def claimPoolStore : Store :=
  { users := [{ id := 1, name := "ana", email := "a" }, { id := 2, name := "bob", email := "b" }]
    categories := []
    items := [{ id := 1, title := "Milk", status := ItemStatus.AVAILABLE
                expiresAt := none, ownerId := 1, categoryId := none },
              { id := 2, title := "Jam", status := ItemStatus.IN_FRIDGE
                expiresAt := none, ownerId := 1, categoryId := none }]
    claims := [], groups := [], members := [], shares := [], messages := []
    nextCategoryId := 1, nextItemId := 3, nextClaimId := 1, nextShareId := 1 }

/-- Witness for C4 at a concrete store: missing item, non-AVAILABLE item,
self-claim, and a valid claim. -/
theorem createClaim_correct_witness :
    (createClaim claimPoolStore 2 9 0 = (claimPoolStore, Api.err 400 "Item not available")) ∧
    (createClaim claimPoolStore 2 2 0 = (claimPoolStore, Api.err 400 "Item not available")) ∧
    (createClaim claimPoolStore 1 1 0 = (claimPoolStore, Api.err 400 "Cannot claim own item")) ∧
    (∃ resp, (createClaim claimPoolStore 2 1 0).2 = Api.ok resp ∧
      resp.claim.status = ClaimStatus.PENDING ∧
      resp.claim.decidedAt = none ∧
      resp.claimer = claimPoolStore.users.find? (fun u => u.id == 2) ∧
      (createClaim claimPoolStore 2 1 0).1.claims = claimPoolStore.claims ++ [resp.claim] ∧
      (createClaim claimPoolStore 2 1 0).1.items = claimPoolStore.items) :=
  ⟨(createClaim_correct claimPoolStore 2 9 0).2.1 (by decide) (by decide),
   ((createClaim_correct claimPoolStore 2 2 0).2.2
      { id := 2, title := "Jam", status := ItemStatus.IN_FRIDGE
        expiresAt := none, ownerId := 1, categoryId := none }
      (by decide) (by decide)).1 (by decide),
   ((createClaim_correct claimPoolStore 1 1 0).2.2
      { id := 1, title := "Milk", status := ItemStatus.AVAILABLE
        expiresAt := none, ownerId := 1, categoryId := none }
      (by decide) (by decide)).2.1 rfl rfl,
   ((createClaim_correct claimPoolStore 2 1 0).2.2
      { id := 1, title := "Milk", status := ItemStatus.AVAILABLE
        expiresAt := none, ownerId := 1, categoryId := none }
      (by decide) (by decide)).2.2 rfl (by decide)⟩

/-- When the (itemId, groupId) share row already exists, an authorized share
by the owner of the item is a pure no-op returning ok. -/
theorem shareItemToGroup_noop (s : Store) (caller groupId itemId : Nat)
    (g : FriendGroup) (item : FoodItem)
    (hid : itemId ≠ 0)
    (hg : s.groups.find? (fun x => x.id == groupId) = some g)
    (hm : isOwnerOrMember s g caller = true)
    (hitem : s.items.find? (fun x => x.id == itemId) = some item)
    (hown : item.ownerId = caller)
    (hsh : s.shares.any (fun sh => sh.itemId == itemId && sh.groupId == groupId) = true) :
    shareItemToGroup s caller groupId itemId = (s, Api.ok true) := by
  have hno : ¬ item.ownerId ≠ caller := by simp [hown]
  simp only [shareItemToGroup, if_neg hid, hg, hm, Bool.not_true, hitem, if_neg hno, hsh]
  rw [if_neg (by simp), if_pos trivial]

/-- Claim C5: shareItemToGroup requires the caller to be the owner of the group or
a member; even then it fails with Forbidden when the caller does not own the
item; and it is idempotent — if the (itemId, groupId) pair holds at most one
share row (the compound unique), a first successful call leaves exactly one
row and a second identical call succeeds without changing the store. -/
theorem shareItemToGroup_correct (s : Store) (caller groupId itemId : Nat)
    (g : FriendGroup)
    (hid : itemId ≠ 0)
    (hg : s.groups.find? (fun x => x.id == groupId) = some g) :
    (isOwnerOrMember s g caller = false →
      shareItemToGroup s caller groupId itemId = (s, Api.err 403 "Not allowed")) ∧
    (∀ item, isOwnerOrMember s g caller = true →
      s.items.find? (fun x => x.id == itemId) = some item → item.ownerId ≠ caller →
      shareItemToGroup s caller groupId itemId
        = (s, Api.err 403 "You can share only your own items")) ∧
    (∀ item, isOwnerOrMember s g caller = true →
      s.items.find? (fun x => x.id == itemId) = some item → item.ownerId = caller →
      countShares s itemId groupId ≤ 1 →
      (shareItemToGroup s caller groupId itemId).2 = Api.ok true ∧
      countShares (shareItemToGroup s caller groupId itemId).1 itemId groupId = 1 ∧
      shareItemToGroup (shareItemToGroup s caller groupId itemId).1 caller groupId itemId
        = ((shareItemToGroup s caller groupId itemId).1, Api.ok true)) := by
  refine ⟨?_, ?_, ?_⟩
  · intro hm
    simp only [shareItemToGroup, if_neg hid, hg, hm, Bool.not_false]
    rw [if_pos trivial]
  · intro item hm hitem hown
    simp only [shareItemToGroup, if_neg hid, hg, hm, Bool.not_true, hitem, if_pos hown]
    rw [if_neg (by simp)]
  · intro item hm hitem hown hle
    have hno : ¬ item.ownerId ≠ caller := by simp [hown]
    by_cases hsh : s.shares.any (fun sh => sh.itemId == itemId && sh.groupId == groupId) = true
    · have hcount : countShares s itemId groupId = 1 := by
        rcases List.any_eq_true.mp hsh with ⟨x, hx, hpx⟩
        have hmem : x ∈ s.shares.filter (fun sh => sh.itemId == itemId && sh.groupId == groupId) :=
          List.mem_filter.mpr ⟨hx, hpx⟩
        have h1 : 1 ≤ countShares s itemId groupId := by
          unfold countShares
          exact List.length_pos.mpr (fun hnil => by simp [hnil] at hmem)
        omega
      have heq : shareItemToGroup s caller groupId itemId = (s, Api.ok true) :=
        shareItemToGroup_noop s caller groupId itemId g item hid hg hm hitem hown hsh
      rw [heq]
      exact ⟨rfl, hcount, heq⟩
    · have hsh0 : s.shares.any (fun sh => sh.itemId == itemId && sh.groupId == groupId) = false :=
        Bool.eq_false_iff.mpr hsh
      have hcount0 : countShares s itemId groupId = 0 := by
        unfold countShares
        rw [List.filter_eq_nil_iff.mpr (fun a ha => by
          have := List.any_eq_false.mp hsh0 a ha
          simpa using this)]
        rfl
      have heq : shareItemToGroup s caller groupId itemId
          = (({ s with
                shares := s.shares ++ [{ id := s.nextShareId, itemId := itemId, groupId := groupId }]
                nextShareId := s.nextShareId + 1 } : Store), Api.ok true) := by
        simp only [shareItemToGroup, if_neg hid, hg, hm, Bool.not_true, hitem, if_neg hno,
          hsh0]
        rw [if_neg (by simp), if_neg (by simp)]
      rw [heq]
      refine ⟨rfl, ?_, ?_⟩
      · unfold countShares at hcount0 ⊢
        dsimp only
        rw [List.filter_append, List.length_append, hcount0]
        simp
      · have hsh1 : ((s.shares ++
            [({ id := s.nextShareId, itemId := itemId, groupId := groupId } : GroupShare)]).any
            (fun sh => sh.itemId == itemId && sh.groupId == groupId)) = true := by
          rw [List.any_append]
          simp
        exact shareItemToGroup_noop _ caller groupId itemId g item hid hg hm hitem hown hsh1

/-- Store for C5: group 1 is owned by user 1 with member user 2; item 1
belongs to member 2, item 2 belongs to outsider 3. -/
def groupStore : Store :=
  { users := [{ id := 1, name := "ana", email := "a" }, { id := 2, name := "bob", email := "b" },
              { id := 3, name := "eve", email := "e" }]
    categories := []
    items := [{ id := 1, title := "Milk", status := ItemStatus.AVAILABLE
                expiresAt := none, ownerId := 2, categoryId := none },
              { id := 2, title := "Jam", status := ItemStatus.AVAILABLE
                expiresAt := none, ownerId := 3, categoryId := none }]
    claims := []
    groups := [{ id := 1, name := "casa", ownerId := 1 }]
    members := [{ id := 1, groupId := 1, userId := 2 }]
    shares := [], messages := []
    nextCategoryId := 1, nextItemId := 3, nextClaimId := 1, nextShareId := 1 }

/-- Witness for C5 at a concrete store: outsider rejected, member sharing a
foreign item rejected, member sharing an own item idempotent. -/
theorem shareItemToGroup_correct_witness :
    (shareItemToGroup groupStore 3 1 1 = (groupStore, Api.err 403 "Not allowed")) ∧
    (shareItemToGroup groupStore 2 1 2
      = (groupStore, Api.err 403 "You can share only your own items")) ∧
    ((shareItemToGroup groupStore 2 1 1).2 = Api.ok true ∧
     countShares (shareItemToGroup groupStore 2 1 1).1 1 1 = 1 ∧
     shareItemToGroup (shareItemToGroup groupStore 2 1 1).1 2 1 1
       = ((shareItemToGroup groupStore 2 1 1).1, Api.ok true)) :=
  ⟨(shareItemToGroup_correct groupStore 3 1 1 { id := 1, name := "casa", ownerId := 1 }
      (by decide) (by decide)).1 (by decide),
   (shareItemToGroup_correct groupStore 2 1 2 { id := 1, name := "casa", ownerId := 1 }
      (by decide) (by decide)).2.1
      { id := 2, title := "Jam", status := ItemStatus.AVAILABLE
        expiresAt := none, ownerId := 3, categoryId := none }
      (by decide) (by decide) (by decide),
   (shareItemToGroup_correct groupStore 2 1 1 { id := 1, name := "casa", ownerId := 1 }
      (by decide) (by decide)).2.2
      { id := 1, title := "Milk", status := ItemStatus.AVAILABLE
        expiresAt := none, ownerId := 2, categoryId := none }
      (by decide) (by decide) rfl (by decide)⟩

/-- Claim C7 amended: for an owner or member caller, listMessages returns at
most 200 messages of the group in ascending creation order; when the group has
more than 200 messages the returned ones are the 200 oldest — every returned
message is no newer than any omitted one — not the 200 most recent. -/
theorem listMessages_correct (s : Store) (caller groupId : Nat) (g : FriendGroup)
    (hg : s.groups.find? (fun x => x.id == groupId) = some g)
    (hm : isOwnerOrMember s g caller = true) :
    ∃ l, listMessages s caller groupId = Api.ok l ∧
      l.length ≤ 200 ∧
      List.Sorted msgLe l ∧
      (∀ m ∈ s.messages.filter (fun x => x.groupId == groupId), m ∉ l →
        ∀ m2 ∈ l, m2.createdAt ≤ m.createdAt) := by
  refine ⟨(List.insertionSort msgLe
      (s.messages.filter fun m => m.groupId == groupId)).take 200, ?_, ?_, ?_, ?_⟩
  · simp only [listMessages, hg, hm, Bool.not_true]
    rw [if_neg (by simp)]
  · rw [List.length_take]
    exact Nat.min_le_left _ _
  · exact List.Pairwise.sublist (List.take_sublist 200 _)
      (List.sorted_insertionSort msgLe _)
  · intro m hmem hnot m2 hm2
    have hmL : m ∈ List.insertionSort msgLe (s.messages.filter fun x => x.groupId == groupId) :=
      (List.perm_insertionSort msgLe _).mem_iff.mpr hmem
    have hsplit := List.take_append_drop 200
      (List.insertionSort msgLe (s.messages.filter fun x => x.groupId == groupId))
    have hsorted := List.sorted_insertionSort msgLe
      (s.messages.filter fun x => x.groupId == groupId)
    rw [← hsplit] at hsorted hmL
    have hmdrop : m ∈ (List.insertionSort msgLe
        (s.messages.filter fun x => x.groupId == groupId)).drop 200 := by
      rcases List.mem_append.mp hmL with h | h
      · exact absurd h hnot
      · exact h
    exact (List.pairwise_append.mp hsorted).2.2 m2 hm2 m hmdrop

/-- Store for C7: group 1 owned by user 1 with 201 chat messages, created at
times 1..201. -/
def chatStore : Store :=
  { users := [{ id := 1, name := "ana", email := "a" }]
    categories := [], items := [], claims := []
    groups := [{ id := 1, name := "casa", ownerId := 1 }]
    members := [], shares := []
    messages := (List.range 201).map fun k =>
      { id := k + 1, groupId := 1, authorId := 1, content := "m", createdAt := k + 1 }
    nextCategoryId := 1, nextItemId := 1, nextClaimId := 1, nextShareId := 1 }

/-- Witness for the amended C7 at a concrete store. -/
theorem listMessages_correct_witness :
    ∃ l, listMessages chatStore 1 1 = Api.ok l ∧
      l.length ≤ 200 ∧
      List.Sorted msgLe l ∧
      (∀ m ∈ chatStore.messages.filter (fun x => x.groupId == 1), m ∉ l →
        ∀ m2 ∈ l, m2.createdAt ≤ m.createdAt) :=
  listMessages_correct chatStore 1 1 { id := 1, name := "casa", ownerId := 1 }
    (by decide) (by decide)

set_option maxRecDepth 100000 in
/-- Counterexample to claim C7 as stated: the group holds 201 messages, yet
the returned page is the 200 oldest (creation times 1..200) — the message with
creation time 201, the most recent one, is not returned, so the endpoint does
not return the 200 most recent messages. -/
theorem listMessages_oldest_cex :
    chatStore.messages.length = 201 ∧
    listMessages chatStore 1 1
      = Api.ok ((List.range 200).map fun k =>
          { id := k + 1, groupId := 1, authorId := 1, content := "m", createdAt := k + 1 }) ∧
    ((List.range 200).map fun k =>
        ({ id := k + 1, groupId := 1, authorId := 1, content := "m",
           createdAt := k + 1 } : GroupMessage)).all
      (fun m => m.createdAt != 201) = true := by decide

/-- Claim C8: authentication yields Unauthorized (401) when the bearer token
is absent (no header, a header without the Bearer scheme, or an empty token),
when verification fails (invalid or expired token), or when the verified user
id no longer resolves to a user in the store — so the token of a deleted user stops
working; otherwise the resolved user is attached and the handler proceeds. -/
theorem authMiddleware_correct (verify : String → Option Nat) (s : Store) :
    (authMiddleware verify s none = Api.err 401 "Unauthorized") ∧
    (∀ h, strStartsWith h "Bearer " = false →
      authMiddleware verify s (some h) = Api.err 401 "Unauthorized") ∧
    (∀ h, strStartsWith h "Bearer " = true → strDrop h 7 = "" →
      authMiddleware verify s (some h) = Api.err 401 "Unauthorized") ∧
    (∀ h, strStartsWith h "Bearer " = true → strDrop h 7 ≠ "" → verify (strDrop h 7) = none →
      authMiddleware verify s (some h) = Api.err 401 "Unauthorized") ∧
    (∀ h uid, strStartsWith h "Bearer " = true → strDrop h 7 ≠ "" →
      verify (strDrop h 7) = some uid →
      s.users.find? (fun u => u.id == uid) = none →
      authMiddleware verify s (some h) = Api.err 401 "Unauthorized") ∧
    (∀ h uid u, strStartsWith h "Bearer " = true → strDrop h 7 ≠ "" →
      verify (strDrop h 7) = some uid →
      s.users.find? (fun u => u.id == uid) = some u →
      authMiddleware verify s (some h) = Api.ok u) := by
  refine ⟨?_, ?_, ?_, ?_, ?_, ?_⟩
  · simp only [authMiddleware, Option.getD]
    rw [if_neg (by decide)]
  · intro h hsw
    simp only [authMiddleware, Option.getD, hsw]
    rw [if_neg (by simp)]
  · intro h hsw hdrop
    simp only [authMiddleware, Option.getD, hsw]
    rw [if_pos trivial]
    dsimp only
    rw [if_pos hdrop]
  · intro h hsw hdrop hv
    simp only [authMiddleware, Option.getD, hsw]
    rw [if_pos trivial]
    dsimp only
    rw [if_neg hdrop]
    simp only [hv]
  · intro h uid hsw hdrop hv hu
    simp only [authMiddleware, Option.getD, hsw]
    rw [if_pos trivial]
    dsimp only
    rw [if_neg hdrop]
    simp only [hv, hu]
  · intro h uid u hsw hdrop hv hu
    simp only [authMiddleware, Option.getD, hsw]
    rw [if_pos trivial]
    dsimp only
    rw [if_neg hdrop]
    simp only [hv, hu]

/-- Store and token verifier for the C8 witness. -/
def authStore : Store :=
  { users := [{ id := 1, name := "ana", email := "a" }]
    categories := [], items := [], claims := [], groups := [], members := []
    shares := [], messages := []
    nextCategoryId := 1, nextItemId := 1, nextClaimId := 1, nextShareId := 1 }

/-- A concrete stand-in for jwt.verify: accepts exactly the token string
"tok1" as user 1 and the token "ghost" as the nonexistent user 9. -/
def demoVerify (t : String) : Option Nat :=
  if t = "tok1" then some 1 else if t = "ghost" then some 9 else none

/-- Witness for C8 at a concrete verifier and store. -/
theorem authMiddleware_correct_witness :
    (authMiddleware demoVerify authStore none = Api.err 401 "Unauthorized") ∧
    (authMiddleware demoVerify authStore (some "Basic xyz") = Api.err 401 "Unauthorized") ∧
    (authMiddleware demoVerify authStore (some "Bearer bad") = Api.err 401 "Unauthorized") ∧
    (authMiddleware demoVerify authStore (some "Bearer ghost") = Api.err 401 "Unauthorized") ∧
    (authMiddleware demoVerify authStore (some "Bearer tok1")
      = Api.ok { id := 1, name := "ana", email := "a" }) :=
  ⟨(authMiddleware_correct demoVerify authStore).1,
   (authMiddleware_correct demoVerify authStore).2.1 "Basic xyz" (by decide),
   (authMiddleware_correct demoVerify authStore).2.2.2.1 "Bearer bad" (by decide)
     (by decide) (by decide),
   (authMiddleware_correct demoVerify authStore).2.2.2.2.1 "Bearer ghost" 9 (by decide)
     (by decide) (by decide) (by decide),
   (authMiddleware_correct demoVerify authStore).2.2.2.2.2 "Bearer tok1" 1
     { id := 1, name := "ana", email := "a" } (by decide) (by decide) (by decide) (by decide)⟩

/-- The category seeding touches only the categories table. -/
theorem ensureCategories_items (s : Store) : (ensureCategories s).items = s.items := by
  simp only [ensureCategories]
  split
  · rfl
  · split
    · rfl
    · rfl

/-- Claim C9: createItem fails with BadRequest on an empty title; on success
the created item has status IN_FRIDGE and its categoryId is either null or
references an existing category row; a categoryId that references no existing
category is not silently stored — the create fails (500, the foreign-key
throw) and the items table is unchanged. -/
theorem createItem_correct (s : Store) (caller : Nat) (title : String)
    (categoryId expiresAt : Option Nat) :
    (title = "" →
      createItem s caller title categoryId expiresAt = (s, Api.err 400 "title is required")) ∧
    (title ≠ "" → fkCategoryOk (ensureCategories s) (normCategoryId categoryId) = true →
      ∃ item, (createItem s caller title categoryId expiresAt).2 = Api.ok item ∧
        item.status = ItemStatus.IN_FRIDGE ∧
        (item.categoryId = none ∨
          ∃ cat ∈ (createItem s caller title categoryId expiresAt).1.categories,
            item.categoryId = some cat.id)) ∧
    (title ≠ "" → fkCategoryOk (ensureCategories s) (normCategoryId categoryId) = false →
      createItem s caller title categoryId expiresAt
        = (ensureCategories s, Api.err 500 "Failed to create item") ∧
      (createItem s caller title categoryId expiresAt).1.items = s.items) := by
  refine ⟨?_, ?_, ?_⟩
  · intro ht
    simp only [createItem, if_pos ht]
  · intro ht hfk
    refine ⟨{ id := (ensureCategories s).nextItemId, title := title
              status := ItemStatus.IN_FRIDGE, expiresAt := expiresAt
              ownerId := caller, categoryId := normCategoryId categoryId }, ?_, rfl, ?_⟩
    · simp only [createItem, if_neg ht, hfk]
      rw [if_pos trivial]
    · cases hcid : normCategoryId categoryId with
      | none => exact Or.inl (by simp [hcid])
      | some c =>
        refine Or.inr ?_
        have hfk2 := hfk
        rw [hcid] at hfk2
        rcases List.any_eq_true.mp hfk2 with ⟨cat, hcat, hc⟩
        refine ⟨cat, ?_, ?_⟩
        · simp only [createItem, if_neg ht, hfk]
          rw [if_pos trivial]
          exact hcat
        · simp only [hcid]
          exact congrArg some (beq_iff_eq.mp hc).symm
  · intro ht hfk
    constructor
    · simp only [createItem, if_neg ht, hfk]
      rw [if_neg (by simp)]
    · simp only [createItem, if_neg ht, hfk]
      rw [if_neg (by simp)]
      exact ensureCategories_items s

/-- Store for C9: one existing category, nothing else. -/
def emptyStore : Store :=
  { users := [{ id := 1, name := "ana", email := "a" }]
    categories := []
    items := [], claims := [], groups := [], members := []
    shares := [], messages := []
    nextCategoryId := 1, nextItemId := 1, nextClaimId := 1, nextShareId := 1 }

/-- Witness for C9 at a concrete store: empty title rejected, a create with a
null category succeeds with IN_FRIDGE, and a dangling categoryId is rejected
with the items table unchanged. -/
theorem createItem_correct_witness :
    (createItem emptyStore 1 "" none none = (emptyStore, Api.err 400 "title is required")) ∧
    (∃ item, (createItem emptyStore 1 "Milk" none none).2 = Api.ok item ∧
      item.status = ItemStatus.IN_FRIDGE ∧
      (item.categoryId = none ∨
        ∃ cat ∈ (createItem emptyStore 1 "Milk" none none).1.categories,
          item.categoryId = some cat.id)) ∧
    (createItem emptyStore 1 "Milk" (some 99) none
      = (ensureCategories emptyStore, Api.err 500 "Failed to create item") ∧
     (createItem emptyStore 1 "Milk" (some 99) none).1.items = emptyStore.items) :=
  ⟨(createItem_correct emptyStore 1 "" none none).1 rfl,
   (createItem_correct emptyStore 1 "Milk" none none).2.1 (by decide) (by decide),
   (createItem_correct emptyStore 1 "Milk" (some 99) none).2.2 (by decide) (by decide)⟩

end FoodWaste
